import Mathlib

/-!
Shallow embedding of the read-lens backend (Express + Sequelize over PostgreSQL).

Each definition is translated from a concrete piece of the repository:
  - src/backend/controllers/bookController.js   (list, detail, like, setPreference)
  - src/backend/controllers/userController.js   (register, login)
  - src/backend/middlewares/errorHandler.js     (errorHandler, authentication)
  - src/backend/models/user.js                  (User.beforeCreate hook)
  - src/backend/models/userpreference.js        (UserPreference.beforeCreate hook)
  - src/backend/services/gemini.js              (GeminiService.summarizeBookDescription)
  - src/unnamed/part_010                        (helpers/bcrypt: hashPassword)

The relational store (PostgreSQL via Sequelize) is modelled as explicit lists of
rows; string comparison in a Sequelize `where` clause is exact (case-sensitive)
string equality, which is PostgreSQL's semantics for `=` on VARCHAR columns.
External collaborators (the OpenLibrary catalog, the JWT verifier, bcrypt, the
Gemini model call) are passed in as explicit inputs or oracle functions.
Async JavaScript is flattened to sequential execution (all claims here are about
sequential behavior), except where a Promise is itself the stored value, which
is modelled explicitly (JsValue below).
-/

namespace ReadLens

/-! ## JavaScript string primitives

The JavaScript string operations the backend uses (String.prototype.trim,
toLowerCase, split) are embedded as structural functions over character lists,
with the ASCII semantics that all inputs in this codebase exercise. -/

/-- The whitespace characters String.prototype.trim strips (ASCII range). -/
def isJsWhitespace (c : Char) : Bool :=
  c == ' ' || c == '\t' || c == '\n' || c == '\r' || c == '\x0b' || c == '\x0c'

/-- String.prototype.trim: strip leading and trailing whitespace. -/
def jsTrim (s : String) : String :=
  String.mk (((s.toList.dropWhile isJsWhitespace).reverse.dropWhile isJsWhitespace).reverse)

/-- String.prototype.toLowerCase on one character (ASCII). -/
def jsToLowerChar (c : Char) : Char :=
  if 'A' ≤ c ∧ c ≤ 'Z' then Char.ofNat (c.toNat + 32) else c

/-- String.prototype.toLowerCase (ASCII semantics). -/
def jsToLower (s : String) : String :=
  String.mk (s.toList.map jsToLowerChar)

/-- Helper for String.prototype.split(' '): accumulate the current component. -/
def splitSpaceAux : List Char → List Char → List (List Char)
  | [], acc => [acc.reverse]
  | c :: rest, acc =>
    if c == ' ' then acc.reverse :: splitSpaceAux rest []
    else splitSpaceAux rest (c :: acc)

/-- String.prototype.split(' '): the space-separated components, keeping empty
components exactly as JavaScript does. -/
def jsSplitSpace (s : String) : List String :=
  (splitSpaceAux s.toList []).map String.mk

/-! ## Database rows and state -/

/-- A row of the Books table: an id and the external OpenLibrary id (olid). -/
structure BookRow where
  id : Nat
  olid : String
deriving DecidableEq, Repr

/-- A row of the UserLikes join table. -/
structure LikeRow where
  userId : Nat
  bookId : Nat
deriving DecidableEq, Repr

/-- A row of the UserPreferences table: (userId, subject, weight). -/
structure PrefRow where
  userId : Nat
  subject : String
  weight : Nat
deriving DecidableEq, Repr

/-- A row of the Users table. The password column holds whatever the
beforeCreate hook assigned (see JsValue for why that is not always a string). -/
structure UserRow where
  id : Nat
  email : String
  password : String
  username : String
  role : String
deriving DecidableEq, Repr

/-- The relational store: books, likes, preferences, and the sequence used for
the next Books primary key. Rows are kept in insertion order. -/
structure DB where
  books : List BookRow
  likes : List LikeRow
  prefs : List PrefRow
  nextBookId : Nat
deriving DecidableEq, Repr

/-- The empty database. -/
def emptyDB : DB := ⟨[], [], [], 1⟩

/-! ## Sequelize query embeddings -/

/-- Book.findOne / the `where: { olid: id }` lookup inside findOrCreate. -/
def findBookByOlid (olid : String) (db : DB) : Option BookRow :=
  db.books.find? (fun b => b.olid == olid)

/-- Book.findOrCreate({ where: { olid: id }, defaults: { olid: id } })
(bookController.js lines 126–129): reuse the existing row, or insert a new one. -/
def bookFindOrCreate (olid : String) (db : DB) : BookRow × DB :=
  match findBookByOlid olid db with
  | some b => (b, db)
  | none =>
    let b : BookRow := ⟨db.nextBookId, olid⟩
    (b, { db with books := db.books ++ [b], nextBookId := db.nextBookId + 1 })

/-- UserLike.findOne({ where: { userId, bookId } }) (bookController.js 132–137). -/
def findLike (userId bookId : Nat) (db : DB) : Option LikeRow :=
  db.likes.find? (fun l => l.userId == userId && l.bookId == bookId)

/-- UserPreference.findOne({ where: { userId, subject } })
(bookController.js 197–202). The subject comparison is exact string equality:
PostgreSQL compares VARCHAR case-sensitively. -/
def findOnePref (userId : Nat) (subject : String) (prefs : List PrefRow) : Option PrefRow :=
  prefs.find? (fun p => p.userId == userId && p.subject == subject)

/-- existingPreference.update({ weight: existingPreference.weight + 1 })
(bookController.js 206–208): increments the weight of the row findOne returned,
i.e. the first matching row. -/
def incrementFirstPref (userId : Nat) (subject : String) : List PrefRow → List PrefRow
  | [] => []
  | p :: rest =>
    if p.userId == userId && p.subject == subject then
      { p with weight := p.weight + 1 } :: rest
    else
      p :: incrementFirstPref userId subject rest

/-- UserPreference.create({ userId, subject, weight: 1 }) (bookController.js
211–215) composed with the model hook UserPreference.beforeCreate
(userpreference.js 43–45), which lower-cases the subject before the insert. -/
def userPreferenceCreate (userId : Nat) (subject : String) (weight : Nat)
    (prefs : List PrefRow) : List PrefRow :=
  prefs ++ [⟨userId, jsToLower subject, weight⟩]

/-! ## BookController.setPreference -/

/-- One iteration of the for-loop in BookController.setPreference
(bookController.js 183–217): skip falsy (empty) subjects, trim, skip when the
trimmed subject is empty, then find-and-increment or create. Note the lookup
uses the trimmed subject as-is, while the create path lower-cases via the
beforeCreate hook. -/
def prefStep (userId : Nat) (subject : String) (prefs : List PrefRow) : List PrefRow :=
  if subject == "" then prefs
  else
    let normalizedSubject := jsTrim subject
    if normalizedSubject.length == 0 then prefs
    else
      match findOnePref userId normalizedSubject prefs with
      | some _ => incrementFirstPref userId normalizedSubject prefs
      | none => userPreferenceCreate userId normalizedSubject 1 prefs

/-- The subject loop with an exception oracle: fail i = true means the database
operation while processing the i-th subject throws; the exception escapes the
loop, leaving the writes made so far committed (each step commits on its own —
no transaction wraps the loop). Returns the resulting rows and whether an
exception was raised. -/
def setPreferenceLoop (fail : Nat → Bool) (userId : Nat) :
    List String → Nat → List PrefRow → List PrefRow × Bool
  | [], _, prefs => (prefs, false)
  | s :: rest, i, prefs =>
    if fail i then (prefs, true)
    else setPreferenceLoop fail userId rest (i + 1) (prefStep userId s prefs)

/-- BookController.setPreference (bookController.js 176–222): early return on a
non-array or empty subject list; otherwise run the loop inside try/catch — any
exception is caught and logged, never rethrown, so the state reached so far is
what remains. -/
def setPreference (fail : Nat → Bool) (userId : Nat) (subjects : List String)
    (prefs : List PrefRow) : List PrefRow :=
  if subjects.length == 0 then prefs
  else (setPreferenceLoop fail userId subjects 0 prefs).1

/-- Whether the per-subject loop inside setPreference raised an exception
(which setPreference then caught and logged). -/
def setPreferenceRaises (fail : Nat → Bool) (userId : Nat) (subjects : List String)
    (prefs : List PrefRow) : Bool :=
  if subjects.length == 0 then false
  else (setPreferenceLoop fail userId subjects 0 prefs).2

/-- The oracle under which no database operation throws. -/
def noFail : Nat → Bool := fun _ => false

/-! ## Error taxonomy and errorHandler -/

/-- The error names the backend throws or remaps (errorHandler.js switch). -/
inductive ErrName
  | ValidationError
  | DuplicateError
  | NotFound
  | InvalidCredentials
  | Unauthenticated
  | JsonWebTokenError
  | TokenExpiredError
  | Forbidden
  | InternalError
deriving DecidableEq, Repr

/-- An error object as thrown by the controllers: a name and a message. -/
structure AppError where
  name : ErrName
  message : String
deriving DecidableEq, Repr

/-- The centralized error translator (errorHandler.js 1–95): maps an error to
the HTTP status and user-facing message. An empty message is JavaScript-falsy,
so the `error.message || default` fallbacks are modelled by an emptiness test. -/
def errorHandler (e : AppError) : Nat × String :=
  match e.name with
  | .ValidationError => (400, if e.message == "" then "Validation error" else e.message)
  | .DuplicateError => (400, if e.message == "" then "Duplicate entry" else e.message)
  | .Unauthenticated => (401, if e.message == "" then "Authentication required" else e.message)
  | .JsonWebTokenError => (401, if e.message == "" then "Authentication required" else e.message)
  | .TokenExpiredError => (401, if e.message == "" then "Authentication required" else e.message)
  | .InvalidCredentials => (401, if e.message == "" then "Invalid credentials" else e.message)
  | .Forbidden => (403, if e.message == "" then "Access forbidden" else e.message)
  | .NotFound => (404, if e.message == "" then "Resource not found" else e.message)
  | .InternalError => (500, "Internal Server Error")

/-! ## BookController.like -/

/-- The work metadata the OpenLibrary catalog returns for a like: a title and an
optional subject list (work.subjects may be absent). -/
structure Work where
  title : String
  subjects : Option (List String)
deriving DecidableEq, Repr

/-- The success body of POST /book/:id/like (bookController.js 154–161). -/
structure LikeResponse where
  status : Nat
  message : String
  bookOlid : String
  bookTitle : String
  preferencesUpdated : Nat
deriving DecidableEq, Repr

/-- preferencesUpdated: work.subjects?.length || 0 (bookController.js 160) —
the raw length of the subject list, 0 when absent. -/
def preferencesUpdatedCount (subjects : Option (List String)) : Nat :=
  match subjects with
  | some l => l.length
  | none => 0

/-- BookController.like (bookController.js 109–169) for a catalog id the
catalog resolved to the given work: validate the id, find-or-create the book
row, reject a duplicate like, create the like row, then best-effort update the
preferences (only when the subject list is present and non-empty), and answer
201 with the title and the raw subject count. The error branch returns the
state reached when the exception was thrown (no rollback). -/
def BookController_like (fail : Nat → Bool) (userId : Nat) (id : String)
    (work : Work) (db : DB) : Except AppError LikeResponse × DB :=
  if id == "" then
    (.error ⟨.ValidationError, "Book ID is required"⟩, db)
  else
    let res := bookFindOrCreate id db
    let book := res.1
    let db1 := res.2
    match findLike userId book.id db1 with
    | some _ => (.error ⟨.DuplicateError, "You have already liked this book"⟩, db1)
    | none =>
      let db2 := { db1 with likes := db1.likes ++ [⟨userId, book.id⟩] }
      let db3 :=
        match work.subjects with
        | some subjects =>
          if 0 < subjects.length then
            { db2 with prefs := setPreference fail userId subjects db2.prefs }
          else db2
        | none => db2
      (.ok ⟨201, "Book liked successfully", id, work.title,
            preferencesUpdatedCount work.subjects⟩, db3)

/-! ## BookController.list (pagination) -/

/-- JavaScript parseInt on a (trimmed) decimal string with optional sign:
none models NaN (no leading digits). Radix-16 and exotic forms are outside the
inputs the claims exercise. -/
def jsParseInt (s : String) : Option Int :=
  let chars := (jsTrim s).toList
  let signed : Bool × List Char :=
    match chars with
    | '-' :: rest => (true, rest)
    | '+' :: rest => (false, rest)
    | l => (false, l)
  let digits := signed.2.takeWhile (fun c => c.isDigit)
  if digits.isEmpty then none
  else
    let n : Nat := digits.foldl (fun acc c => acc * 10 + (c.toNat - '0'.toNat)) 0
    some (if signed.1 then -(n : Int) else (n : Int))

/-- The JavaScript expression x || d for a parsed integer x: NaN and 0 are
falsy, so both fall back to the default. -/
def jsOrDefault (x : Option Int) (d : Int) : Int :=
  match x with
  | none => d
  | some n => if n == 0 then d else n

/-- validLimit (bookController.js 15): Math.min(Math.max(parseInt(limit) || 20,
1), 100), where an absent query parameter defaults to 20 by destructuring. -/
def validLimit (limit : Option String) : Int :=
  let raw : Int :=
    match limit with
    | none => 20
    | some s => jsOrDefault (jsParseInt s) 20
  min (max raw 1) 100

/-- validPage (bookController.js 16): Math.max(parseInt(page) || 1, 1), with
destructuring default 1 when absent. -/
def validPage (page : Option String) : Int :=
  let raw : Int :=
    match page with
    | none => 1
    | some s => jsOrDefault (jsParseInt s) 1
  max raw 1

/-- The pagination object of the list response (bookController.js 33–38). -/
structure Pagination where
  currentPage : Int
  limit : Int
  totalResults : Nat
  totalPages : Nat
deriving DecidableEq, Repr

/-- Math.ceil(numFound / validLimit) for a positive integer limit. -/
def ceilDivNat (n l : Nat) : Nat := (n + l - 1) / l

/-- The pagination block BookController.list answers with, given the
query parameters and the catalog's numFound. -/
def listPagination (limit page : Option String) (numFound : Nat) : Pagination :=
  let l := validLimit limit
  ⟨validPage page, l, numFound, ceilDivNat numFound l.toNat⟩

/-! ## UserController.login -/

/-- The JWT payload generateToken signs (userController.js 158–162). -/
structure TokenPayload where
  id : Nat
  email : String
  role : String
deriving DecidableEq, Repr

/-- User.findOne({ where: { email } }) (userController.js 144). -/
def findUserByEmail (email : String) (users : List UserRow) : Option UserRow :=
  users.find? (fun u => u.email == email)

/-- UserController.login (userController.js 134–177). The bcrypt comparison is
an external collaborator, passed in as comparePassword. On success the signed
token payload and the user are returned; the two authentication failure causes
each throw InvalidCredentials with the same message. -/
def UserController_login (comparePassword : String → String → Bool)
    (users : List UserRow) (email password : String) :
    Except AppError (TokenPayload × UserRow) :=
  if email == "" || password == "" then
    .error ⟨.ValidationError, "Email and password are required"⟩
  else
    match findUserByEmail email users with
    | none => .error ⟨.InvalidCredentials, "Invalid email or password"⟩
    | some user =>
      if comparePassword password user.password then
        .ok (⟨user.id, user.email, user.role⟩, user)
      else
        .error ⟨.InvalidCredentials, "Invalid email or password"⟩

/-! ## authentication middleware -/

/-- The request user object the middleware attaches (errorHandler.js 127–132). -/
structure ReqUser where
  id : Nat
  email : String
  username : String
  role : String
deriving DecidableEq, Repr

/-- authorization.split(' ')[1] followed by the falsy check (errorHandler.js
110–114): the token is the second space-separated component, rejected when
missing or empty. -/
def extractToken (authorization : String) : Option String :=
  match (jsSplitSpace authorization).get? 1 with
  | none => none
  | some t => if t == "" then none else some t

/-- User.findByPk(decoded.id) (errorHandler.js 120). -/
def findByPk (id : Nat) (users : List UserRow) : Option UserRow :=
  users.find? (fun u => u.id == id)

/-- The catch-clause remapping of JWT library errors (errorHandler.js 136–143). -/
def jwtErrorRemap (e : AppError) : AppError :=
  match e.name with
  | .JsonWebTokenError => ⟨.Unauthenticated, "Invalid token"⟩
  | .TokenExpiredError => ⟨.Unauthenticated, "Token has expired"⟩
  | _ => e

/-- The authentication middleware (errorHandler.js 101–146): require the
Authorization header, extract the Bearer token, verify it (verifyToken is the
external JWT primitive), then re-check in the store that the account still
exists; a missing account throws Unauthenticated "User not found". -/
def authentication (verifyToken : String → Except AppError TokenPayload)
    (users : List UserRow) (authorization : Option String) :
    Except AppError ReqUser :=
  let body : Except AppError ReqUser :=
    match authorization with
    | none => .error ⟨.Unauthenticated, "Please login first"⟩
    | some auth =>
      match extractToken auth with
      | none => .error ⟨.Unauthenticated, "Invalid token format"⟩
      | some token =>
        match verifyToken token with
        | .error e => .error e
        | .ok decoded =>
          match findByPk decoded.id users with
          | none => .error ⟨.Unauthenticated, "User not found"⟩
          | some user => .ok ⟨user.id, user.email, user.username, user.role⟩
  match body with
  | .error e => .error (jwtErrorRemap e)
  | .ok u => .ok u

/-! ## GeminiService and BookController.detail -/

/-- work.description as the catalog delivers it: a plain string, a
structured value object, or absent. -/
inductive JsDescription
  | str (s : String)
  | obj (value : String)
  | absent
deriving DecidableEq, Repr

/-- originalDescription (bookController.js 65–67): take .value from a
structured description, else the string, else the fallback text; the empty
string is falsy and also falls back. -/
def originalDescription : JsDescription → String
  | .obj v => v
  | .str s => if s == "" then "No description available" else s
  | .absent => "No description available"

/-- The outcome of the external Gemini model call (model.generateContent):
it answers with text or throws. -/
inductive GenOutcome
  | ok (text : String)
  | thrown (msg : String)
deriving DecidableEq, Repr

/-- GeminiService.summarizeBookDescription (gemini.js 20–60): null when the
API key is missing (this.genAI is null), null when the description is falsy or
shorter than 100 characters, the trimmed model answer on success, and null for
any error thrown during the call (the try/catch returns null). The title and
subjects only shape the prompt and cannot change which branch is taken. -/
def summarizeBookDescription (hasApiKey : Bool) (outcome : GenOutcome)
    (description : String) : Option String :=
  if !hasApiKey then none
  else if description == "" || description.length < 100 then none
  else
    match outcome with
    | .ok text => some (jsTrim text)
    | .thrown _ => none

/-- The work metadata BookController.detail consumes. -/
structure DetailWork where
  title : String
  description : JsDescription
  subjects : Option (List String)
deriving DecidableEq, Repr

/-- The body of GET /book/:id (bookController.js 80–93); aiSummary is the
optionally-spread field. -/
structure BookDetail where
  status : Nat
  olid : String
  title : String
  description : String
  aiSummary : Option String
  subjects : List String
deriving DecidableEq, Repr

/-- BookController.detail (bookController.js 49–103): validate the id, resolve
the description, call the summarizer only when summarize=true and a real
description exists, and spread aiSummary into the response only when it is
truthy (non-null and non-empty). -/
def BookController_detail (hasApiKey : Bool) (outcome : GenOutcome)
    (id : String) (summarize : Option String) (work : DetailWork) :
    Except AppError BookDetail :=
  if id == "" then
    .error ⟨.ValidationError, "Book ID is required"⟩
  else
    let desc := originalDescription work.description
    let aiSummary : Option String :=
      if summarize = some "true" ∧ desc ≠ "No description available" then
        summarizeBookDescription hasApiKey outcome desc
      else none
    .ok { status := 200
          olid := id
          title := work.title
          description := desc
          aiSummary :=
            match aiSummary with
            | some s => if s == "" then none else some s
            | none => none
          subjects := work.subjects.getD [] }

/-! ## Password hashing at registration -/

/-- A JavaScript value as relevant to the password column: a string, or a
pending Promise that will resolve to a string. -/
inductive JsValue
  | str (s : String)
  | promiseOf (resolvesTo : String)
deriving DecidableEq, Repr

/-- The JavaScript typeof operator on the two value shapes above: a Promise is
an object. -/
def jsTypeof : JsValue → String
  | .str _ => "string"
  | .promiseOf _ => "object"

/-- Modelled from the spec: the external bcryptjs salted hash ("standard
crypto primitives", spec section 2). A call salted with a fresh salt produces
the usual dollar-prefixed hash string embedding the salt, so distinct salts
give distinct outputs. The digest internals are abstracted; the salt is
supplied explicitly to make its freshness visible. -/
def bcryptHashString (salt : Nat) (password : String) : String :=
  "$2b$10$" ++ toString salt ++ "$" ++ password

/-- hashPassword (src/unnamed/part_010 lines 3–5): bcrypt.hash(password, 10)
called WITHOUT a callback, which under bcryptjs returns a Promise of the hash
string, not the string. -/
def hashPassword (salt : Nat) (password : String) : JsValue :=
  .promiseOf (bcryptHashString salt password)

/-- The record a registration builds before the insert. -/
structure UserRecord where
  email : String
  password : JsValue
  username : String
  role : String
deriving DecidableEq, Repr

/-- User.beforeCreate (user.js 57–59): user.password = hashPassword(user.password)
with no await, so the assigned value is whatever hashPassword returns. -/
def User_beforeCreate (salt : Nat) (u : UserRecord) : UserRecord :=
  { u with
    password :=
      match u.password with
      | .str s => hashPassword salt s
      | v => v }

/-! ## Helper lemmas -/

/-- findOrCreate on the Books table never touches the likes. -/
theorem bookFindOrCreate_likes (olid : String) (db : DB) :
    (bookFindOrCreate olid db).2.likes = db.likes := by
  unfold bookFindOrCreate
  cases findBookByOlid olid db <;> rfl

/-- findOrCreate on the Books table never touches the preferences. -/
theorem bookFindOrCreate_prefs (olid : String) (db : DB) :
    (bookFindOrCreate olid db).2.prefs = db.prefs := by
  unfold bookFindOrCreate
  cases findBookByOlid olid db <;> rfl

/-- If the per-subject loop raised, the subject list was non-empty. -/
theorem setPreferenceRaises_ne_nil (fail : Nat → Bool) (userId : Nat)
    (subjects : List String) (prefs : List PrefRow)
    (h : setPreferenceRaises fail userId subjects prefs = true) :
    0 < subjects.length := by
  by_cases hl : subjects.length = 0
  · unfold setPreferenceRaises at h
    simp [hl] at h
  · exact Nat.pos_of_ne_zero hl

/-- Concrete evaluation of the trim primitive, for use as a rewrite rule. -/
theorem jsTrim_Fiction : jsTrim "Fiction" = "Fiction" := rfl

/-- Concrete evaluation of the trim primitive, for use as a rewrite rule. -/
theorem jsTrim_Adventure : jsTrim "  Adventure  " = "Adventure" := rfl

/-- Concrete evaluation of the trim primitive, for use as a rewrite rule. -/
theorem jsTrim_FICTION : jsTrim "FICTION" = "FICTION" := rfl

/-- Concrete evaluation of the lower-casing primitive. -/
theorem jsToLower_Fiction : jsToLower "Fiction" = "fiction" := rfl

/-- Concrete evaluation of the lower-casing primitive. -/
theorem jsToLower_Adventure : jsToLower "Adventure" = "adventure" := rfl

/-- Concrete evaluation of the lower-casing primitive. -/
theorem jsToLower_FICTION : jsToLower "FICTION" = "fiction" := rfl

/-- Concrete string length, for use as a rewrite rule. -/
theorem slen_Fiction : ("Fiction" : String).length = 7 := rfl

/-- Concrete string length, for use as a rewrite rule. -/
theorem slen_Adventure : ("Adventure" : String).length = 9 := rfl

/-- Concrete string length, for use as a rewrite rule. -/
theorem slen_FICTION : ("FICTION" : String).length = 7 := rfl

/-! ## Claim theorems -/

/-- C1: the claim says two sequential likes of different books whose subject
lists each contain "Programming" leave exactly one stored preference row for
"programming" with weight 2. Evaluating the code at that input, the account
ends with TWO rows for "programming", each of weight 1: the lookup inside
setPreference uses the trimmed but not lower-cased subject "Programming",
which never matches the row the beforeCreate hook stored lower-cased, so the
second like creates a fresh row instead of incrementing. This contradicts the
repository's own tests, which expect a single "programming" row of weight 2. -/
theorem c1_two_programming_likes_make_two_rows :
    ((BookController_like noFail 1 "OLB" ⟨"Book B", some ["Programming"]⟩
        (BookController_like noFail 1 "OLA" ⟨"Book A", some ["Programming"]⟩ emptyDB).2).2).prefs
      = [⟨1, "programming", 1⟩, ⟨1, "programming", 1⟩] ∧
    ((BookController_like noFail 1 "OLB" ⟨"Book B", some ["Programming"]⟩
        (BookController_like noFail 1 "OLA" ⟨"Book A", some ["Programming"]⟩ emptyDB).2).2).prefs
      ≠ [⟨1, "programming", 2⟩] := by
  constructor
  · rfl
  · decide

/-- C2 counterexample: after a single like of a work with subjects
["Fiction", "  Adventure  ", "", "FICTION"] from an empty store, the stored
preferences are three rows, not the claimed exactly-two: the lookup for
"FICTION" (trimmed only) does not match the already-stored lower-cased
"fiction" row, so a second "fiction" row of weight 1 is created. -/
theorem c2_four_subject_like_falsifies_claim :
    ((BookController_like noFail 1 "OLF"
        ⟨"F", some ["Fiction", "  Adventure  ", "", "FICTION"]⟩ emptyDB).2).prefs
      = [⟨1, "fiction", 1⟩, ⟨1, "adventure", 1⟩, ⟨1, "fiction", 1⟩] ∧
    ((BookController_like noFail 1 "OLF"
        ⟨"F", some ["Fiction", "  Adventure  ", "", "FICTION"]⟩ emptyDB).2).prefs.length ≠ 2 := by
  constructor
  · rfl
  · decide

/-- C2 amended: for every account with no stored preferences, a single like of
a work with subjects ["Fiction", "  Adventure  ", "", "FICTION"] stores exactly
three rows — "fiction" weight 1, "adventure" weight 1, and a second "fiction"
weight 1 — each subject lower-cased and trimmed, the empty subject skipped. -/
theorem c2_amended_three_normalized_rows (u : Nat) :
    ((BookController_like noFail u "OLF"
        ⟨"F", some ["Fiction", "  Adventure  ", "", "FICTION"]⟩ emptyDB).2).prefs
      = [⟨u, "fiction", 1⟩, ⟨u, "adventure", 1⟩, ⟨u, "fiction", 1⟩] := by
  simp [BookController_like, bookFindOrCreate, findBookByOlid, findLike, emptyDB,
    setPreference, setPreferenceLoop, prefStep, findOnePref, userPreferenceCreate,
    incrementFirstPref, noFail, List.find?,
    jsTrim_Fiction, jsTrim_Adventure, jsTrim_FICTION,
    jsToLower_Fiction, jsToLower_Adventure, jsToLower_FICTION,
    slen_Fiction, slen_Adventure, slen_FICTION]

/-- Refinement comparison, following the spec's words for C3 (not the code):
the number of subjects that remain after filtering out those that are empty or
all-whitespace after trimming. -/
def filteredSubjectCount (subjects : List String) : Nat :=
  (subjects.filter (fun s => !(jsTrim s == ""))).length

/-- C3 counterexample: for a successful like of a work with subject list
["Fiction", ""], the response's preferencesUpdated is 2 — the raw list length —
while the length after empty-filtering is 1, so the claimed equality fails. -/
theorem c3_count_not_filtered_at_input :
    (BookController_like noFail 1 "OLZ" ⟨"Z", some ["Fiction", ""]⟩ emptyDB).1
      = .ok ⟨201, "Book liked successfully", "OLZ", "Z", 2⟩ ∧
    filteredSubjectCount ["Fiction", ""] = 1 ∧ (2 : Nat) ≠ 1 := by
  refine ⟨rfl, by decide, by decide⟩

/-- C3 amended: for every successful like, preferencesUpdated equals the RAW
length of the work's subject list (work.subjects?.length || 0), with no
empty-filtering applied to the count, and 0 when the work has no subject list. -/
theorem c3_amended_count_is_raw_length (fail : Nat → Bool) (u : Nat) (id : String)
    (work : Work) (db : DB) (r : LikeResponse)
    (h : (BookController_like fail u id work db).1 = .ok r) :
    r.preferencesUpdated = preferencesUpdatedCount work.subjects := by
  unfold BookController_like at h
  by_cases hid : id == ""
  · simp [hid] at h
  · simp only [hid, Bool.false_eq_true, if_false] at h
    cases hfl : findLike u (bookFindOrCreate id db).1.id (bookFindOrCreate id db).2 with
    | some l => rw [hfl] at h; simp at h
    | none =>
      rw [hfl] at h
      simp only [Except.ok.injEq] at h
      rw [← h]

/-- Witness for C3's amended theorem at a concrete input. -/
theorem c3_amended_count_witness :
    (⟨201, "Book liked successfully", "OLZ", "Z", 2⟩ : LikeResponse).preferencesUpdated
      = preferencesUpdatedCount (some ["Fiction", ""]) :=
  c3_amended_count_is_raw_length noFail 1 "OLZ" ⟨"Z", some ["Fiction", ""]⟩ emptyDB
    ⟨201, "Book liked successfully", "OLZ", "Z", 2⟩ (by rfl)

/-- C4: the claim says limit=500 clamps to 100, limit=0 clamps to 1, page=0
clamps to 1, and totalPages = ceil(totalResults / effectiveLimit). Evaluating
the code: limit=500 does clamp to 100 and page=0 does become 1, but limit=0
yields 20, not 1 — parseInt(limit) || 20 treats the parsed 0 as falsy and
falls back to the default 20 before the clamp ever runs. The repository's own
test expects the catalog to be queried with limit 1 for limit=0. -/
theorem c4_limit_zero_falls_back_to_default :
    validLimit (some "500") = 100 ∧
    validLimit (some "0") = 20 ∧
    validLimit (some "0") ≠ 1 ∧
    validPage (some "0") = 1 ∧
    listPagination (some "0") (some "0") 103 = ⟨1, 20, 103, 6⟩ := by
  refine ⟨by decide, by decide, by decide, by decide, by decide⟩

/-- C7: the claim says the stored password is a per-call salted hash string,
hashed exactly once before persistence. Evaluating the code at a valid
registration input: hashPassword is the promise-returning bcrypt.hash (no
callback, never awaited), so User.beforeCreate assigns a pending Promise —
a value of JavaScript type "object", not a hash string — to the password
field. The repository's own helper tests assert typeof hashPassword(pw) is
"string" and that comparePassword accepts it, both of which fail on a
Promise. -/
theorem c7_beforeCreate_stores_promise :
    User_beforeCreate 0 ⟨"a@b.com", .str "secret123", "alice", "user"⟩
      = ⟨"a@b.com", .promiseOf (bcryptHashString 0 "secret123"), "alice", "user"⟩ ∧
    jsTypeof (User_beforeCreate 0 ⟨"a@b.com", .str "secret123", "alice", "user"⟩).password
      = "object" ∧
    jsTypeof (User_beforeCreate 0 ⟨"a@b.com", .str "secret123", "alice", "user"⟩).password
      ≠ "string" := by
  refine ⟨rfl, rfl, by decide⟩

/-- C5: under sequential execution, a second like of the same (account, book)
pair fails with DuplicateError ("You have already liked this book") and performs
no further writes: the returned state is exactly the input state — no second
Like row, no preference change. -/
theorem c5_second_like_rejected (fail : Nat → Bool) (u : Nat) (id : String)
    (work : Work) (db : DB) (b : BookRow)
    (hid : id ≠ "")
    (hbook : findBookByOlid id db = some b)
    (hliked : (findLike u b.id db).isSome = true) :
    BookController_like fail u id work db
      = (.error ⟨.DuplicateError, "You have already liked this book"⟩, db) := by
  obtain ⟨l, hl⟩ := Option.isSome_iff_exists.mp hliked
  unfold BookController_like bookFindOrCreate
  rw [hbook]
  simp [hid, hl]

/-- Witness for C5 at a concrete store holding the first like. -/
theorem c5_witness :
    BookController_like noFail 1 "OLA" ⟨"Book A", some ["Programming"]⟩
        ⟨[⟨1, "OLA"⟩], [⟨1, 1⟩], [⟨1, "programming", 1⟩], 2⟩
      = (.error ⟨.DuplicateError, "You have already liked this book"⟩,
         ⟨[⟨1, "OLA"⟩], [⟨1, 1⟩], [⟨1, "programming", 1⟩], 2⟩) :=
  c5_second_like_rejected noFail 1 "OLA" ⟨"Book A", some ["Programming"]⟩
    ⟨[⟨1, "OLA"⟩], [⟨1, 1⟩], [⟨1, "programming", 1⟩], 2⟩ ⟨1, "OLA"⟩
    (by decide) (by rfl) (by rfl)

/-- C6: when the per-subject preference-update step raises an exception (any
failure oracle that fires), the exception is swallowed by setPreference's
try/catch: the like still answers 201 "Book liked successfully", the created
Like row stays in the store (second conjunct), and only the preference writes
made before the exception remain. -/
theorem c6_pref_failure_swallowed (fail : Nat → Bool) (u : Nat) (id : String)
    (work : Work) (db : DB) (subjects : List String)
    (hid : id ≠ "")
    (hsub : work.subjects = some subjects)
    (hnodup : findLike u (bookFindOrCreate id db).1.id (bookFindOrCreate id db).2 = none)
    (hraise : setPreferenceRaises fail u subjects db.prefs = true) :
    BookController_like fail u id work db
      = (.ok ⟨201, "Book liked successfully", id, work.title, subjects.length⟩,
         { (bookFindOrCreate id db).2 with
             likes := db.likes ++ [⟨u, (bookFindOrCreate id db).1.id⟩],
             prefs := setPreference fail u subjects db.prefs }) ∧
    (⟨u, (bookFindOrCreate id db).1.id⟩ : LikeRow) ∈
      (BookController_like fail u id work db).2.likes := by
  have hpos := setPreferenceRaises_ne_nil fail u subjects db.prefs hraise
  have hmain : BookController_like fail u id work db
      = (.ok ⟨201, "Book liked successfully", id, work.title, subjects.length⟩,
         { (bookFindOrCreate id db).2 with
             likes := db.likes ++ [⟨u, (bookFindOrCreate id db).1.id⟩],
             prefs := setPreference fail u subjects db.prefs }) := by
    unfold BookController_like
    rw [hsub]
    simp [hid, hnodup, hpos, bookFindOrCreate_likes, bookFindOrCreate_prefs,
      preferencesUpdatedCount]
  refine ⟨hmain, ?_⟩
  rw [hmain]
  simp

/-- Witness for C6: a like whose every preference write throws still succeeds
and keeps its Like row. -/
theorem c6_witness :
    BookController_like (fun _ => true) 1 "OLA" ⟨"Book A", some ["Programming"]⟩ emptyDB
      = (.ok ⟨201, "Book liked successfully", "OLA", "Book A", ["Programming"].length⟩,
         { (bookFindOrCreate "OLA" emptyDB).2 with
             likes := emptyDB.likes ++ [⟨1, (bookFindOrCreate "OLA" emptyDB).1.id⟩],
             prefs := setPreference (fun _ => true) 1 ["Programming"] emptyDB.prefs }) ∧
    (⟨1, (bookFindOrCreate "OLA" emptyDB).1.id⟩ : LikeRow) ∈
      (BookController_like (fun _ => true) 1 "OLA" ⟨"Book A", some ["Programming"]⟩ emptyDB).2.likes :=
  c6_pref_failure_swallowed (fun _ => true) 1 "OLA" ⟨"Book A", some ["Programming"]⟩ emptyDB
    ["Programming"] (by decide) rfl (by rfl) (by rfl)

/-- C8: both login failure causes — unknown email, and known email with a
non-matching password — produce the identical InvalidCredentials error, which
the centralized errorHandler maps to status 401 with the message
"Invalid email or password"; the caller cannot distinguish the two causes. -/
theorem c8_login_failures_indistinguishable (cp : String → String → Bool)
    (users : List UserRow) (email password : String)
    (hemail : email ≠ "") (hpw : password ≠ "")
    (hfail : findUserByEmail email users = none ∨
      ∃ u, findUserByEmail email users = some u ∧ cp password u.password = false) :
    UserController_login cp users email password
        = .error ⟨.InvalidCredentials, "Invalid email or password"⟩ ∧
    errorHandler ⟨.InvalidCredentials, "Invalid email or password"⟩
        = (401, "Invalid email or password") := by
  refine ⟨?_, rfl⟩
  unfold UserController_login
  rcases hfail with hnone | ⟨u, hu, hcp⟩
  · simp [hemail, hpw, hnone]
  · simp [hemail, hpw, hu, hcp]

/-- Witness for C8 with a store containing one user and a rejecting password
comparison. -/
theorem c8_witness :
    UserController_login (fun _ _ => false) [⟨1, "a@b.c", "h", "al", "user"⟩] "a@b.c" "pw"
        = .error ⟨.InvalidCredentials, "Invalid email or password"⟩ ∧
    errorHandler ⟨.InvalidCredentials, "Invalid email or password"⟩
        = (401, "Invalid email or password") :=
  c8_login_failures_indistinguishable (fun _ _ => false) [⟨1, "a@b.c", "h", "al", "user"⟩]
    "a@b.c" "pw" (by decide) (by decide)
    (.inr ⟨⟨1, "a@b.c", "h", "al", "user"⟩, by rfl, rfl⟩)

/-- When the API key is missing or the model call throws, the summarizer
returns null. -/
theorem summarize_none_of_failure (hasApiKey : Bool) (outcome : GenOutcome)
    (description : String)
    (hfail : hasApiKey = false ∨ ∃ m, outcome = .thrown m) :
    summarizeBookDescription hasApiKey outcome description = none := by
  unfold summarizeBookDescription
  rcases hfail with h | ⟨m, hm⟩
  · simp [h]
  · subst hm
    cases hasApiKey
    · rfl
    · simp only [Bool.not_true, Bool.false_eq_true, if_false]
      split
      · rfl
      · rfl

/-- C9: a getBookDetail request with summarize=true and a description of at
least 100 characters still succeeds when the summarization collaborator is
unavailable (no API key) or throws: the response is the 200 book detail and
the aiSummary field is simply absent. -/
theorem c9_summarizer_failure_degrades (hasApiKey : Bool) (outcome : GenOutcome)
    (id : String) (work : DetailWork)
    (hid : id ≠ "")
    (hlen : 100 ≤ (originalDescription work.description).length)
    (hfail : hasApiKey = false ∨ ∃ m, outcome = .thrown m) :
    BookController_detail hasApiKey outcome id (some "true") work
      = .ok { status := 200, olid := id, title := work.title,
              description := originalDescription work.description,
              aiSummary := none, subjects := work.subjects.getD [] } := by
  have hdesc : originalDescription work.description ≠ "No description available" := by
    intro hEq
    rw [hEq] at hlen
    exact absurd hlen (by decide)
  unfold BookController_detail
  simp [hid, hdesc, summarize_none_of_failure hasApiKey outcome _ hfail]

/-- A 120-character description, long enough for the summarizer. -/
def c9LongDescription : String := String.mk (List.replicate 120 (Char.ofNat 97))

/-- Witness for C9: detail with a long description and no API key. -/
theorem c9_witness :
    BookController_detail false (.ok "sum") "OL1" (some "true")
        ⟨"T", .str c9LongDescription, none⟩
      = .ok { status := 200, olid := "OL1", title := "T",
              description := originalDescription (JsDescription.str c9LongDescription),
              aiSummary := none, subjects := (none : Option (List String)).getD [] } :=
  c9_summarizer_failure_degrades false (.ok "sum") "OL1" ⟨"T", .str c9LongDescription, none⟩
    (by decide) (by decide) (.inl rfl)

/-- C10: a request carrying a well-formed, validly verified token whose
embedded account id no longer exists in the store is rejected by the
authentication middleware with Unauthenticated "User not found", which the
errorHandler maps to 401: the middleware re-checks account existence on every
request, so deleting an account invalidates its outstanding tokens. -/
theorem c10_deleted_account_token_rejected (verify : String → Except AppError TokenPayload)
    (users : List UserRow) (auth token : String) (payload : TokenPayload)
    (hex : extractToken auth = some token)
    (hver : verify token = .ok payload)
    (hgone : findByPk payload.id users = none) :
    authentication verify users (some auth)
        = .error ⟨.Unauthenticated, "User not found"⟩ ∧
    errorHandler ⟨.Unauthenticated, "User not found"⟩ = (401, "User not found") := by
  refine ⟨?_, rfl⟩
  unfold authentication
  simp [hex, hver, hgone, jwtErrorRemap]

/-- Witness for C10: a verified token for account 7 against an empty store. -/
theorem c10_witness :
    authentication (fun _ => .ok ⟨7, "gone@x.y", "user"⟩) [] (some "Bearer tok")
        = .error ⟨.Unauthenticated, "User not found"⟩ ∧
    errorHandler ⟨.Unauthenticated, "User not found"⟩ = (401, "User not found") :=
  c10_deleted_account_token_rejected (fun _ => .ok ⟨7, "gone@x.y", "user"⟩) []
    "Bearer tok" "tok" ⟨7, "gone@x.y", "user"⟩ (by rfl) rfl rfl

end ReadLens
